import Mathlib

/-!
# JustUI Navigation Guardian — verification of the spec against the code

Shallow embedding of the Navigation Guardian subsystem of the JustUI
browser extension:

* `src/scripts/injected-script.js` — the Page-World Interceptor
  (permission round-trip, risk-asymmetric error fallback, pop-under
  heuristic, navigation-primitive overrides);
* `src/scripts/modules/ScriptAnalyzer.js` — the Threat Scorer
  (`analyzeScriptContent`);
* `src/scripts/content.js` — the Guardian Core (whitelist matching,
  confirmation modal, message arbitration, statistics);
* the Resource Lifecycle Registry (`EventListenerRegistry.cleanup`,
  `CleanupRegistry.cleanupAll` / `cleanupModule`).

Pure JavaScript logic is translated directly; the only parts abstracted
as oracle parameters are the regular-expression engine (a signature
either matches an input or it does not), URL parsing
(`new URL(u, base)` resolving to an origin / hostname), and the outcome
of one asynchronous round-trip (a response, a timeout, or one of the
error paths of the source).  Timestamps are integers (milliseconds), as
JavaScript `Date.now()` values are.
-/

namespace JustUI

/-! ## Page-World Interceptor (`injected-script.js`) -/

/-- Constant `CONFIG.PERMISSION_CHECK_TIMEOUT_MS` (30 s), kept for reference. -/
def PERMISSION_CHECK_TIMEOUT_MS : Nat := 30000

/-- Constant `CONFIG.MAX_PERMISSION_RETRIES`. -/
def MAX_PERMISSION_RETRIES : Nat := 1

/-- Constant `CONFIG.CLICK_WINDOW_MS`. -/
def CLICK_WINDOW_MS : Int := 1000

/-- Constant `CONFIG.WINDOW_OPEN_TRACKING_WINDOW_MS`. -/
def WINDOW_OPEN_TRACKING_WINDOW_MS : Int := 60000

/-- Constant `CONFIG.POP_UNDER_THRESHOLD_SCORE`. -/
def POP_UNDER_THRESHOLD_SCORE : Nat := 4

/-- The possible outcomes of one `checkNavigationPermission` round-trip,
as distinguished by the source: a matching `NAV_GUARDIAN_RESPONSE`
arrives carrying `allowed`; the 30-second timeout fires; registering the
message listener throws; posting the request throws; or the response
handler itself throws. -/
inductive CheckOutcome where
  | response (allowed : Bool)
  | timeout
  | listenerError
  | sendError
  | handlerError
deriving DecidableEq, Repr

/-- Whether an outcome takes the promise-rejection path of the source
(the three error cases); a timeout is *not* a rejection. -/
def CheckOutcome.isReject : CheckOutcome → Bool
  | .response _ => false
  | .timeout => false
  | _ => true

/-- Function `checkNavigationPermission` (injected-script.js, lines 242–340),
as a function of the round-trip outcome.  A response resolves with its
`allowed` flag; a timeout *resolves* `false` ("Timeout is not an error -
just deny navigation", line 266); the three error paths reject. -/
def checkNavigationPermission : CheckOutcome → Except String Bool
  | .response allowed => .ok allowed
  | .timeout => .ok false
  | .listenerError => .error "Failed to add message listener"
  | .sendError => .error "Failed to send permission request"
  | .handlerError => .error "Message handler error"

/-- Function `assessNavigationRisk` (injected-script.js, lines 386–408).
`isUrlMalicious` stands for `MaliciousPatternDetector.isUrlMalicious`
(an external pattern matcher): `window.open` is always high risk; other
navigation types are high risk only for a malicious URL. -/
def assessNavigationRisk (isUrlMalicious : String → Bool)
    (navType url : String) : Bool :=
  if navType = "window.open" then true
  else isUrlMalicious url

/-- The retry loop of `safeCheckNavigationPermission`
(injected-script.js, lines 346–379).  `outcomes n` is the round-trip
outcome of attempt `n`; `fuel` counts the attempts still permitted
(the source's `for` loop runs attempts `0 .. MAX_PERMISSION_RETRIES`).
A resolved check returns its value; a rejected check retries, and on
the final attempt falls back to the risk-asymmetric default
`!assessNavigationRisk`.  The fuel-exhausted case is the source's
unreachable trailing `return false`. -/
def safeCheckLoop (isUrlMalicious : String → Bool) (url navType : String)
    (outcomes : Nat → CheckOutcome) : Nat → Nat → Bool
  | 0, _ => false
  | fuel + 1, attempt =>
    match checkNavigationPermission (outcomes attempt) with
    | .ok v => v
    | .error _ =>
      if attempt = MAX_PERMISSION_RETRIES then
        !assessNavigationRisk isUrlMalicious navType url
      else
        safeCheckLoop isUrlMalicious url navType outcomes fuel (attempt + 1)

/-- Function `safeCheckNavigationPermission` (injected-script.js, lines 343–383). -/
def safeCheckNavigationPermission (isUrlMalicious : String → Bool)
    (url navType : String) (outcomes : Nat → CheckOutcome) : Bool :=
  safeCheckLoop isUrlMalicious url navType outcomes (MAX_PERMISSION_RETRIES + 1) 0

/-- JavaScript `String.prototype.startsWith`, as the character-list
test on the string's characters. -/
def strStartsWith (s p : String) : Bool := p.data.isPrefixOf s.data

/-- The special-protocol test of `isCrossOrigin`
(`/^(javascript|mailto|tel|data|blob|about):|^#/`), written out as the
string tests the regex performs. -/
def isSpecialProtocol (u : String) : Bool :=
  strStartsWith u "javascript:" || strStartsWith u "mailto:" || strStartsWith u "tel:" ||
  strStartsWith u "data:" || strStartsWith u "blob:" || strStartsWith u "about:" ||
  strStartsWith u "#"

/-- Function `isCrossOrigin` of the injected script (lines 211–229).
`resolveOrigin u` stands for `new URL(u, window.location.href).origin`;
`none` is the `catch` branch (URL constructor threw), which returns
`false`.  A null/empty URL and a special-protocol URL are not
cross-origin; otherwise origins are compared. -/
def isCrossOrigin (resolveOrigin : String → Option String)
    (currentOrigin : String) : Option String → Bool
  | none => false
  | some u =>
    if u = "" then false
    else if isSpecialProtocol u then false
    else
      match resolveOrigin u with
      | none => false
      | some o => o ≠ currentOrigin

/-- The four behavioural factors combined by `isPopUnderBehavior`. -/
structure PopUnderFactors where
  clickTriggered : Bool
  popUnderURL : Bool
  blankTarget : Bool
  tooFrequent : Bool
deriving DecidableEq, Repr

/-- The analysis object returned by `isPopUnderBehavior`. -/
structure PopUnderAnalysis where
  isPopUnder : Bool
  score : Nat
  factors : PopUnderFactors
deriving DecidableEq, Repr

/-- The mutable state read and written by `isPopUnderBehavior`:
`lastDocumentClick` (updated by the capture-phase document click
listener; initially `0`) and `recentWindowOpens`. -/
structure PopUnderState where
  lastDocumentClick : Int
  recentWindowOpens : List Int
deriving DecidableEq, Repr

/-- Function `isPopUnderBehavior` (injected-script.js, lines 516–553).
`now` is `Date.now()` at the call.  The call pushes `now` onto
`recentWindowOpens` and drops entries older than the one-minute
tracking window, *then* tests `length > 3`; the score is
`(clickTriggered ? 3) + (popUnderURL ? 4) + (blankTarget ? 2) +
(tooFrequent ? 2)` against `POP_UNDER_THRESHOLD_SCORE = 4`. -/
def isPopUnderBehavior (isUrlMalicious : String → Bool)
    (st : PopUnderState) (now : Int) (url name : Option String) :
    PopUnderAnalysis × PopUnderState :=
  let isClickTriggered : Bool := now - st.lastDocumentClick < CLICK_WINDOW_MS
  let hasPopUnderURL : Bool := isUrlMalicious (url.getD "")
  let isBlankTarget : Bool := name = some "_blank" || name = some ""
  let recent :=
    (st.recentWindowOpens ++ [now]).filter
      (fun time => now - time < WINDOW_OPEN_TRACKING_WINDOW_MS)
  let tooFrequent : Bool := recent.length > 3
  let popUnderScore : Nat :=
    (if isClickTriggered then 3 else 0) + (if hasPopUnderURL then 4 else 0) +
    (if isBlankTarget then 2 else 0) + (if tooFrequent then 2 else 0)
  (⟨decide (popUnderScore ≥ POP_UNDER_THRESHOLD_SCORE), popUnderScore,
    ⟨isClickTriggered, hasPopUnderURL, isBlankTarget, tooFrequent⟩⟩,
   { st with recentWindowOpens := recent })

/-- What an intercepted navigation call does, as observable from the
page: return `null` with no message (immediate pop-under block), call
the original primitive with no message (pass-through), or post a
`NAV_GUARDIAN_CHECK` and await the response. -/
inductive InterceptAction where
  | blocked
  | passthrough
  | permissionCheck
deriving DecidableEq, Repr

/-- The `window.open` override (injected-script.js, lines 556–600).
The pop-under heuristic runs *first*; a flagged call is blocked
immediately (returns `null`, no message).  Only then is the same-origin
pass-through tested; cross-origin survivors go through
`safeCheckNavigationPermission`. -/
def windowOpenOverride (isUrlMalicious : String → Bool)
    (resolveOrigin : String → Option String) (currentOrigin : String)
    (st : PopUnderState) (now : Int) (url name : Option String) :
    InterceptAction × PopUnderState :=
  let (analysis, st') := isPopUnderBehavior isUrlMalicious st now url name
  if analysis.isPopUnder then (.blocked, st')
  else if !isCrossOrigin resolveOrigin currentOrigin url then (.passthrough, st')
  else (.permissionCheck, st')

/-- The `location.assign` / `location.replace` / `location.href`
overrides (injected-script.js, lines 603–690): a non-cross-origin URL
passes straight through to the saved original; a cross-origin URL goes
through `safeCheckNavigationPermission`. -/
def locationOverride (resolveOrigin : String → Option String)
    (currentOrigin : String) (url : Option String) : InterceptAction :=
  if !isCrossOrigin resolveOrigin currentOrigin url then .passthrough
  else .permissionCheck

/-! ## Threat Scorer (`ScriptAnalyzer.analyzeScriptContent`) -/

/-- One entry of the `threats` list built by `analyzeScriptContent`. -/
structure Threat where
  type : String
  score : Nat
deriving DecidableEq, Repr

/-- The `ThreatAnalysis` value object returned by `analyzeScriptContent`. -/
structure ThreatAnalysis where
  riskScore : Nat
  threats : List Threat
  isPopUnder : Bool
  shouldBlock : Bool
deriving DecidableEq, Repr

/-- The `popUnderSignatures` table of `analyzeScriptContent`
(ScriptAnalyzer.js, lines 47–57): the weight and label of each
signature, in source order.  The regular expressions themselves are
abstracted by the match oracle passed to `analyzeScriptContent`. -/
def popUnderSignatures : List (Nat × String) :=
  [(10, "Explicit pop-under function"),
   (9, "Pop-under rate limiting mechanism"),
   (8, "Pop-under with focus manipulation"),
   (7, "Single-use click hijacking listener"),
   (6, "Ad exchange URL construction"),
   (5, "Click tracking ID generation"),
   (4, "Pop-under timing delay"),
   (6, "Known malicious ad network"),
   (5, "Ad tracking parameters")]

/-- The `behaviorPatterns` table of `analyzeScriptContent`
(ScriptAnalyzer.js, lines 72–78). -/
def behaviorPatterns : List (Nat × String) :=
  [(3, "Timestamp tracking behavior"),
   (2, "Domain checking behavior"),
   (2, "Random ID generation"),
   (3, "URL parameter encoding"),
   (1, "Timestamp usage")]

/-- Both signature tables in the order `analyzeScriptContent` applies
them. -/
def allSignatures : List (Nat × String) := popUnderSignatures ++ behaviorPatterns

/-- The `forEach` accumulation of `analyzeScriptContent`: every
signature whose pattern matches (per the oracle `matched`, indexed from
`base` in table order) adds its full weight to the score and appends a
threat entry; matchers are independent and scores are not capped. -/
def applySignatures (matched : Nat → Bool) :
    Nat → List (Nat × String) → Nat × List Threat
  | _, [] => (0, [])
  | base, (weight, threat) :: rest =>
    let (s, ths) := applySignatures matched (base + 1) rest
    if matched base then (weight + s, ⟨threat, weight⟩ :: ths) else (s, ths)

/-- Function `analyzeScriptContent` (ScriptAnalyzer.js, lines 38–92),
with the regex engine abstracted: `matched i` tells whether the `i`-th
signature of `allSignatures` matches the script text.  The thresholds
are the source's: `isPopUnder` at `riskScore >= 8`, `shouldBlock` at
`riskScore >= 6` ("Lower threshold for blocking"). -/
def analyzeScriptContent (matched : Nat → Bool) : ThreatAnalysis :=
  let (s1, t1) := applySignatures matched 0 popUnderSignatures
  let (s2, t2) := applySignatures matched popUnderSignatures.length behaviorPatterns
  let riskScore := s1 + s2
  ⟨riskScore, t1 ++ t2, decide (riskScore ≥ 8), decide (riskScore ≥ 6)⟩

/-! ## Whitelist matching (`domainMatches`) -/

namespace Content

/-- Function `domainMatches` of content.js (lines 29–44).  JavaScript
strings are modelled as character lists: `startsWith` is
`List.isPrefixOf`, `endsWith` is `List.isSuffixOf`, `slice(2)` is
`List.drop 2`.  A `*.`-pattern matches the base domain and any
subdomain; a bare pattern matches exactly or as a subdomain suffix. -/
def domainMatches (domain pattern : List Char) : Bool :=
  if (['*', '.']).isPrefixOf pattern then
    let baseDomain := pattern.drop 2
    domain == baseDomain || ('.' :: baseDomain).isSuffixOf domain
  else if domain == pattern then true
  else ('.' :: pattern).isSuffixOf domain

/-- Function `isDomainWhitelisted` of content.js (lines 50–62), without
the single-entry memo cache (which caches the identical computation). -/
def isDomainWhitelisted (whitelist : List (List Char)) (domain : List Char) : Bool :=
  whitelist.any (fun whitelistedDomain => domainMatches domain whitelistedDomain)

end Content

namespace DomainMatchUtil

/-- Function `domainMatches` of `src/utils/domainMatch.js` (lines 4–19):
same matching rules as the content.js copy, with an additional guard
returning `false` for an empty domain or pattern, and the exact-match
test placed first. -/
def domainMatches (domain pattern : List Char) : Bool :=
  if domain = [] || pattern = [] then false
  else if domain == pattern then true
  else if (['*', '.']).isPrefixOf pattern then
    let baseDomain := pattern.drop 2
    domain == baseDomain || ('.' :: baseDomain).isSuffixOf domain
  else ('.' :: pattern).isSuffixOf domain

end DomainMatchUtil

/-! ## Guardian Core (`content.js` navigation message arbitration) -/

/-- Session counters persisted as `navigationStats`. -/
structure NavStats where
  blockedCount : Nat
  allowedCount : Nat
deriving DecidableEq, Repr

/-- The environment of the content script: `hostOf u` stands for
`new URL(u, window.location.href).hostname` (`none` when the URL
constructor throws), `currentHost` for `window.location.hostname`. -/
structure GuardEnv where
  hostOf : String → Option (List Char)
  currentHost : List Char

/-- Function `isCrossOrigin` of content.js (lines 65–79): unlike the
injected script's origin comparison, this one compares hostnames. -/
def contentIsCrossOrigin (env : GuardEnv) (url : String) : Bool :=
  if url = "" then false
  else if isSpecialProtocol url then false
  else
    match env.hostOf url with
    | none => false
    | some h => h ≠ env.currentHost

/-- Function `isNavigationTrusted` of content.js (lines 82–91): the
resolved hostname is tested against the whitelist. -/
def isNavigationTrusted (env : GuardEnv) (whitelist : List (List Char))
    (url : String) : Bool :=
  if url = "" then false
  else
    match env.hostOf url with
    | none => false
    | some h => Content.isDomainWhitelisted whitelist h

/-- The observable state of the content script's Navigation Guardian:
settings, session counters, the `pendingNavigationModals` map (modelled
as the list of pending message ids), the visible confirmation modal (the
DOM element `justui-navigation-modal`, carrying the request it will
resolve), a count of modals actually shown, the last
`navigationStats` value written to `chrome.storage.local`, and the log
of `NAV_GUARDIAN_RESPONSE` messages posted so far. -/
structure GuardState where
  navigationGuardEnabled : Bool
  whitelist : List (List Char)
  navigationStats : NavStats
  pendingNavigationModals : List String
  activeModal : Option (String × String)
  modalsShown : Nat
  storedStats : Option NavStats
  responses : List (String × Bool)
deriving DecidableEq, Repr

/-- The `NAV_GUARDIAN_CHECK` branch of `handleNavigationMessage`
(content.js, lines 333–371), combined with the duplicate-modal guard of
`showNavigationModal` (lines 100–107).  A duplicate `messageId` is
ignored while pending; an enabled guard with a cross-origin, untrusted
URL records the id as pending and shows the modal — unless a modal
already exists, in which case `showNavigationModal` returns without
registering the callback; every other case posts an immediate
`allowed = true` response, touching no counters. -/
def handleNavigationMessage (env : GuardEnv) (st : GuardState)
    (url messageId : String) : GuardState :=
  if messageId ∈ st.pendingNavigationModals then st
  else if st.navigationGuardEnabled && contentIsCrossOrigin env url &&
      !isNavigationTrusted env st.whitelist url then
    let st1 := { st with
      pendingNavigationModals := messageId :: st.pendingNavigationModals }
    if st1.activeModal.isSome then st1
    else { st1 with
      activeModal := some (messageId, url),
      modalsShown := st1.modalsShown + 1 }
  else { st with responses := st.responses ++ [(messageId, true)] }

/-- A user decision on the visible modal: `handleAllow` / `handleDeny`
(content.js, lines 190–210) followed by the callback registered by
`handleNavigationMessage` (lines 350–360).  The `hasResponded` guard is
modelled by clearing `activeModal`: one modal resolves at most once.
The winning handler removes the modal, increments exactly one counter,
persists the counters (`updateNavigationStats`), deletes the pending
entry and posts the response. -/
def resolveNavigationModal (st : GuardState) (allowed : Bool) : GuardState :=
  match st.activeModal with
  | none => st
  | some (messageId, _url) =>
    let stats :=
      if allowed then
        { st.navigationStats with allowedCount := st.navigationStats.allowedCount + 1 }
      else
        { st.navigationStats with blockedCount := st.navigationStats.blockedCount + 1 }
    { st with
      activeModal := none,
      navigationStats := stats,
      storedStats := some stats,
      pendingNavigationModals := st.pendingNavigationModals.erase messageId,
      responses := st.responses ++ [(messageId, allowed)] }

/-- Events the navigation guardian reacts to: an incoming
`NAV_GUARDIAN_CHECK` and a user resolution of the visible modal. -/
inductive NavEvent where
  | check (url messageId : String)
  | userResolve (allowed : Bool)
deriving DecidableEq, Repr

/-- One event step of the content-script guardian. -/
def navStep (env : GuardEnv) (st : GuardState) : NavEvent → GuardState
  | .check url messageId => handleNavigationMessage env st url messageId
  | .userResolve allowed => resolveNavigationModal st allowed

/-- Run a sequence of events. -/
def navRun (env : GuardEnv) (st : GuardState) : List NavEvent → GuardState
  | [] => st
  | e :: evs => navRun env (navStep env st e) evs

/-- The request `messageId` can never be answered: no continuation of
the run ever posts a `NAV_GUARDIAN_RESPONSE` carrying it. -/
def neverAnswered (env : GuardEnv) (st : GuardState) (messageId : String) : Prop :=
  ∀ evs b, (messageId, b) ∉ (navRun env st evs).responses

/-- A stuck request: pending, not owned by the visible modal, and not
yet answered.  Such a request stays stuck forever (`stuck_navRun`). -/
def stuckRequest (st : GuardState) (messageId : String) : Prop :=
  messageId ∈ st.pendingNavigationModals ∧
  (∀ url, st.activeModal ≠ some (messageId, url)) ∧
  (∀ b, (messageId, b) ∉ st.responses)

/-! ## Resource Lifecycle Registry

The `EventListenerRegistry` (unnamed module, `part_001`) and the
`CleanupRegistry` of `ICleanable.js` (unnamed module, `part_002`). -/

/-- The `LISTENER_PRIORITIES` cleanup ordering. -/
inductive ListenerPriority where
  | critical
  | high
  | normal
  | low
deriving DecidableEq, Repr

/-- The cleanup pass order of `EventListenerRegistry.cleanup`
(`priorityOrder`, part_001 line 570). -/
def listenerPriorityOrder : List ListenerPriority :=
  [.critical, .high, .normal, .low]

/-- The tracked part of a `listenerInfo` record relevant to cleanup. -/
structure ListenerInfo where
  id : Nat
  moduleId : String
  priority : ListenerPriority
  isActive : Bool
deriving DecidableEq, Repr

/-- The `listenerStats` counters of the registry. -/
structure ListenerStats where
  totalRegistered : Nat
  totalRemoved : Nat
  activeCount : Nat
deriving DecidableEq, Repr

/-- The observable state of an `EventListenerRegistry`: the
`listeners` map, the per-module tracking map, the orphan set, the
statistics, and whether the periodic `cleanupTimer` is running. -/
structure EventListenerRegistry where
  listeners : List ListenerInfo
  moduleListeners : List (String × List Nat)
  orphanedListeners : List Nat
  listenerStats : ListenerStats
  cleanupTimer : Bool
deriving DecidableEq, Repr

/-- The `untrackModuleListener` bookkeeping (part_001, lines 310–318):
drop the id from the owning module's set and delete the set when it
becomes empty. -/
def untrackModuleListener (ml : List (String × List Nat))
    (moduleId : String) (id : Nat) : List (String × List Nat) :=
  ml.filterMap fun p =>
    if p.1 = moduleId then
      let rest := p.2.filter (fun i => i ≠ id)
      if rest = [] then none else some (p.1, rest)
    else some p

/-- Function `removeListenerInfo` (part_001, lines 235–264), with
`removeFails id` standing for `element.removeEventListener` throwing for
that listener.  On success the listener leaves every tracking structure
and the counters are updated (`activeCount` floored at 0, as
`Math.max(0, …)` does); on failure the listener stays, is marked
orphaned, and `false` is returned. -/
def removeListenerInfo (removeFails : Nat → Bool)
    (reg : EventListenerRegistry) (info : ListenerInfo) :
    EventListenerRegistry × Bool :=
  if removeFails info.id then
    ({ reg with orphanedListeners := reg.orphanedListeners ++ [info.id] }, false)
  else
    ({ reg with
        listeners := reg.listeners.filter (fun l => l.id ≠ info.id),
        moduleListeners := untrackModuleListener reg.moduleListeners info.moduleId info.id,
        listenerStats := { reg.listenerStats with
          totalRemoved := reg.listenerStats.totalRemoved + 1,
          activeCount := reg.listenerStats.activeCount - 1 } }, true)

/-- Function `remove` (part_001, lines 149–157): look the id up, then
`removeListenerInfo`. -/
def removeListener (removeFails : Nat → Bool)
    (reg : EventListenerRegistry) (id : Nat) :
    EventListenerRegistry × Bool :=
  match reg.listeners.find? (fun l => l.id = id) with
  | none => (reg, false)
  | some info => removeListenerInfo removeFails reg info

/-- Method `EventListenerRegistry.cleanup` (part_001, lines 557–631):
stop the periodic timer, remove the tracked listeners priority class by
priority class, retry whatever remains, then unconditionally clear every
tracking structure and reset the statistics — so the registry reports
zero active listeners even when individual removals failed. -/
def registryCleanup (removeFails : Nat → Bool)
    (reg : EventListenerRegistry) : EventListenerRegistry :=
  let reg0 := { reg with cleanupTimer := false }
  let reg1 := listenerPriorityOrder.foldl
    (fun (acc : EventListenerRegistry) p =>
      let ids := (acc.listeners.filter (fun l => l.priority = p)).map (·.id)
      ids.foldl (fun a id => (removeListener removeFails a id).1) acc)
    reg0
  let remainingIds := reg1.listeners.map (·.id)
  let reg2 := remainingIds.foldl (fun a id => (removeListener removeFails a id).1) reg1
  { reg2 with
    listeners := [],
    moduleListeners := [],
    orphanedListeners := [],
    listenerStats := { totalRegistered := 0, totalRemoved := 0, activeCount := 0 } }

/-- What one registered module's `cleanup()` does when invoked by the
`CleanupRegistry`: it returns, it throws synchronously, its promise
rejects, or it hangs past the per-module `cleanupTimeout`. -/
inductive ModuleCleanupOutcome where
  | success
  | throwsSync
  | rejects
  | timesOut
deriving DecidableEq, Repr

/-- A `moduleEntry` of the `CleanupRegistry` (part_002, lines 269–280),
restricted to the fields cleanup reads: name, compartment, the
registration `priority` option and the analysed `riskLevel` (JavaScript
strings, as in the source). -/
structure ModuleEntry where
  name : String
  compartment : String
  priority : String
  riskLevel : String
deriving DecidableEq, Repr

/-- One entry of the report returned by `cleanupAll`. -/
structure CleanupResult where
  name : String
  compartment : String
  success : Bool
deriving DecidableEq, Repr

/-- The comparator key of `cleanupAll`'s sort (part_002, lines 346–360):
`priorityOrder[priority] || 2` then the risk level, higher first.  The
two-stage comparator is the lexicographic descending order on
`(priority, risk)`, i.e. descending on `4 * priority + risk`. -/
def priorityOrderNum (p : String) : Nat :=
  if p = "high" then 3 else if p = "normal" then 2 else if p = "low" then 1 else 2

/-- The numeric risk used as the sort tie-break. -/
def riskOrderNum (r : String) : Nat :=
  if r = "high" then 3 else if r = "medium" then 2 else 1

/-- Combined descending sort key for `cleanupAll`. -/
def cleanupSortKey (e : ModuleEntry) : Nat :=
  4 * priorityOrderNum e.priority + riskOrderNum e.riskLevel

/-- The state of a `CleanupRegistry` relevant to `cleanupAll`. -/
structure CleanupRegistry where
  modules : List ModuleEntry
  compartments : List String
  cleanupTimer : Bool
  cleanupHistoryLen : Nat
deriving DecidableEq, Repr

/-- Method `cleanupModule` (part_002, lines 390–426): a module whose
cleanup returns is reported successful; a synchronous throw, an async
rejection, and a `Cleanup timeout` race loss are each *caught* and
reported as a failed entry — none of them propagates. -/
def cleanupModule (outcome : ModuleCleanupOutcome) (e : ModuleEntry) :
    CleanupResult :=
  match outcome with
  | .success => ⟨e.name, e.compartment, true⟩
  | .throwsSync => ⟨e.name, e.compartment, false⟩
  | .rejects => ⟨e.name, e.compartment, false⟩
  | .timesOut => ⟨e.name, e.compartment, false⟩

/-- Method `cleanupAll` (part_002, lines 341–383): sort the registered
modules by priority then risk (descending), clean each one in turn
collecting its report entry, then clear the module and compartment
storage, append to the history and stop the periodic timer.  `outcomes`
gives each named module's cleanup behaviour. -/
def cleanupAll (outcomes : String → ModuleCleanupOutcome)
    (reg : CleanupRegistry) : CleanupRegistry × List CleanupResult :=
  let sorted := reg.modules.insertionSort
    (fun a b => cleanupSortKey b ≤ cleanupSortKey a)
  let results := sorted.map (fun e => cleanupModule (outcomes e.name) e)
  ({ reg with
      modules := [],
      compartments := [],
      cleanupTimer := false,
      cleanupHistoryLen := reg.cleanupHistoryLen + 1 }, results)

/-! ## Scenario constants and helper functions used by the theorems -/

/-- A sequence of `window.open` calls threaded through the interceptor
state, collecting each call's observable action. -/
def runWindowOpens (isUrlMalicious : String → Bool)
    (resolveOrigin : String → Option String) (currentOrigin : String) :
    PopUnderState → List (Int × Option String × Option String) →
    List InterceptAction × PopUnderState
  | st, [] => ([], st)
  | st, (now, url, name) :: rest =>
    let (a, st1) := windowOpenOverride isUrlMalicious resolveOrigin currentOrigin
      st now url name
    let (as, st2) := runWindowOpens isUrlMalicious resolveOrigin currentOrigin st1 rest
    (a :: as, st2)

/-- The score as a function of the four factors — the exact sum
`isPopUnderBehavior` computes. -/
def scoreOfFactors (f : PopUnderFactors) : Nat :=
  (if f.clickTriggered then 3 else 0) + (if f.popUnderURL then 4 else 0) +
  (if f.blankTarget then 2 else 0) + (if f.tooFrequent then 2 else 0)

/-- A concrete content-script environment for the scenario theorems:
the page `site.test`, with resolvable hostnames for the URLs the
scenarios use. -/
def scenarioEnv : GuardEnv where
  hostOf u :=
    if u = "https://evil1.example/" then some "evil1.example".toList
    else if u = "https://evil2.example/" then some "evil2.example".toList
    else if u = "https://sub.example.com/page" then some "sub.example.com".toList
    else none
  currentHost := "site.test".toList

/-- The content script's initial guardian state with the whitelist
`["example.com"]`: guard enabled, zero counters, nothing pending. -/
def scenarioInit : GuardState where
  navigationGuardEnabled := true
  whitelist := ["example.com".toList]
  navigationStats := ⟨0, 0⟩
  pendingNavigationModals := []
  activeModal := none
  modalsShown := 0
  storedStats := none
  responses := []

/-- Two concurrent checks: the second arrives while the first one's
modal is still visible. -/
def concurrentTrace : List NavEvent :=
  [.check "https://evil1.example/" "m1", .check "https://evil2.example/" "m2"]

/-- The state after `concurrentTrace`: `m2` is recorded as pending, but
the modal belongs to `m1` and no response has been posted. -/
def concurrentState : GuardState where
  navigationGuardEnabled := true
  whitelist := ["example.com".toList]
  navigationStats := ⟨0, 0⟩
  pendingNavigationModals := ["m2", "m1"]
  activeModal := some ("m1", "https://evil1.example/")
  modalsShown := 1
  storedStats := none
  responses := []

/-- A duplicated check (same `messageId` while pending) followed by the
user allowing the navigation. -/
def duplicateTrace : List NavEvent :=
  [.check "https://evil1.example/" "m1", .check "https://evil1.example/" "m1",
   .userResolve true]

/-- The four-call burst of the spec's pop-under scenario: distinct
cross-origin targets within one minute, no document click
(`lastDocumentClick = 0`), no window name. -/
def burstCalls : List (Int × Option String × Option String) :=
  [(1100, some "https://e1.example/", none),
   (2200, some "https://e2.example/", none),
   (3300, some "https://e3.example/", none),
   (4400, some "https://e4.example/", none)]

/-- The same burst with `_blank` window names. -/
def burstCallsBlank : List (Int × Option String × Option String) :=
  [(1100, some "https://e1.example/", some "_blank"),
   (2200, some "https://e2.example/", some "_blank"),
   (3300, some "https://e3.example/", some "_blank"),
   (4400, some "https://e4.example/", some "_blank")]

/-! ## Helper lemmas: a stuck request stays unanswered forever -/

theorem stuck_navStep (env : GuardEnv) (st : GuardState) (messageId : String)
    (e : NavEvent) (h : stuckRequest st messageId) :
    stuckRequest (navStep env st e) messageId := by
  obtain ⟨hpend, hmodal, hresp⟩ := h
  cases e with
  | check url mid =>
    simp only [navStep, handleNavigationMessage]
    by_cases hdup : mid ∈ st.pendingNavigationModals
    · simp [hdup]; exact ⟨hpend, hmodal, hresp⟩
    · have hne : mid ≠ messageId := fun h => hdup (h ▸ hpend)
      simp only [hdup, if_false]
      by_cases hbranch : (st.navigationGuardEnabled && contentIsCrossOrigin env url &&
          !isNavigationTrusted env st.whitelist url) = true
      · simp only [hbranch, if_true]
        by_cases hvis : (st.activeModal).isSome
        · simp only [hvis, if_true]
          exact ⟨List.mem_cons_of_mem _ hpend, hmodal, hresp⟩
        · simp only [hvis, Bool.false_eq_true, if_false]
          refine ⟨List.mem_cons_of_mem _ hpend, ?_, hresp⟩
          intro u hu
          simp only [Option.some.injEq, Prod.mk.injEq] at hu
          exact hne hu.1
      · simp only [hbranch, Bool.false_eq_true, if_false]
        refine ⟨hpend, hmodal, ?_⟩
        intro b hb
        rcases List.mem_append.1 hb with h1 | h1
        · exact hresp b h1
        · simp only [List.mem_singleton, Prod.mk.injEq] at h1
          exact hne h1.1.symm
  | userResolve allowed =>
    simp only [navStep, resolveNavigationModal]
    cases hm : st.activeModal with
    | none => exact ⟨hpend, hmodal, hresp⟩
    | some p =>
      obtain ⟨mid, u⟩ := p
      have hne : mid ≠ messageId := by
        intro h
        exact (hmodal u) (by rw [hm, h])
      refine ⟨?_, ?_, ?_⟩
      · exact (List.mem_erase_of_ne (fun h => hne h.symm)).2 hpend
      · intro url hu; simp at hu
      · intro b hb
        rcases List.mem_append.1 hb with h1 | h1
        · exact hresp b h1
        · simp only [List.mem_singleton, Prod.mk.injEq] at h1
          exact hne h1.1.symm

theorem stuck_navRun (env : GuardEnv) (st : GuardState) (messageId : String)
    (evs : List NavEvent) (h : stuckRequest st messageId) :
    stuckRequest (navRun env st evs) messageId := by
  induction evs generalizing st with
  | nil => exact h
  | cons e evs ih => exact ih _ (stuck_navStep env st messageId e h)

theorem stuck_neverAnswered (env : GuardEnv) (st : GuardState)
    (messageId : String) (h : stuckRequest st messageId) :
    neverAnswered env st messageId := by
  intro evs b hb
  exact (stuck_navRun env st messageId evs h).2.2 b hb

/-! ## Helper lemmas: interceptor and scorer -/

theorem safeCheck_of_reject_reject (isUrlMalicious : String → Bool)
    (url navType : String) (outcomes : Nat → CheckOutcome)
    (h0 : (outcomes 0).isReject = true) (h1 : (outcomes 1).isReject = true) :
    safeCheckNavigationPermission isUrlMalicious url navType outcomes =
      !assessNavigationRisk isUrlMalicious navType url := by
  have e0 : ∃ s, checkNavigationPermission (outcomes 0) = Except.error s := by
    cases ho : outcomes 0 <;> rw [ho] at h0 <;>
      simp_all [CheckOutcome.isReject, checkNavigationPermission]
  have e1 : ∃ s, checkNavigationPermission (outcomes 1) = Except.error s := by
    cases ho : outcomes 1 <;> rw [ho] at h1 <;>
      simp_all [CheckOutcome.isReject, checkNavigationPermission]
  obtain ⟨s0, e0⟩ := e0
  obtain ⟨s1, e1⟩ := e1
  simp [safeCheckNavigationPermission, safeCheckLoop, MAX_PERMISSION_RETRIES, e0, e1]

theorem isPopUnderBehavior_score_eq (isUrlMalicious : String → Bool)
    (st : PopUnderState) (now : Int) (url name : Option String) :
    (isPopUnderBehavior isUrlMalicious st now url name).1.score =
      scoreOfFactors (isPopUnderBehavior isUrlMalicious st now url name).1.factors := rfl

theorem isPopUnderBehavior_isPopUnder_eq (isUrlMalicious : String → Bool)
    (st : PopUnderState) (now : Int) (url name : Option String) :
    (isPopUnderBehavior isUrlMalicious st now url name).1.isPopUnder =
      decide ((isPopUnderBehavior isUrlMalicious st now url name).1.score ≥
        POP_UNDER_THRESHOLD_SCORE) := rfl

theorem applySignatures_score (matched : Nat → Bool) :
    ∀ (sigs : List (Nat × String)) (base : Nat),
      (applySignatures matched base sigs).1 =
        ((List.range sigs.length).map
          (fun j => if matched (base + j) then (sigs.getD j (0, "")).1 else 0)).sum := by
  intro sigs
  induction sigs with
  | nil => intro base; rfl
  | cons sig rest ih =>
    intro base
    obtain ⟨weight, threat⟩ := sig
    have step : (applySignatures matched base ((weight, threat) :: rest)).1 =
        (if matched base then weight else 0) +
          (applySignatures matched (base + 1) rest).1 := by
      simp only [applySignatures]
      cases matched base <;> simp
    have hmap : List.map
        ((fun j => if matched (base + j) = true then
            (((weight, threat) :: rest).getD j (0, "")).1 else 0) ∘ Nat.succ)
        (List.range rest.length)
        = List.map (fun j => if matched (base + 1 + j) = true then
            (rest.getD j (0, "")).1 else 0)
          (List.range rest.length) := by
      apply List.map_congr_left
      intro j _
      simp only [Function.comp_apply, Nat.succ_eq_add_one, List.getD_cons_succ]
      have hbj : base + (j + 1) = base + 1 + j := by omega
      rw [hbj]
    rw [step, ih (base + 1)]
    simp only [List.length_cons, List.range_succ_eq_map, List.map_cons,
      List.sum_cons, List.map_map, hmap, Nat.add_zero, List.getD_cons_zero]

/-! ## Helper lemmas: registry cleanup preserves the stopped timer -/

theorem removeListener_fst_cleanupTimer (removeFails : Nat → Bool)
    (reg : EventListenerRegistry) (id : Nat) :
    ((removeListener removeFails reg id).1).cleanupTimer = reg.cleanupTimer := by
  rcases h : reg.listeners.find? (fun l => l.id = id) with _ | info
  · simp [removeListener, h]
  · cases hf : removeFails info.id <;>
      simp [removeListener, h, removeListenerInfo, hf]

theorem foldl_removeListener_cleanupTimer (removeFails : Nat → Bool)
    (ids : List Nat) :
    ∀ reg : EventListenerRegistry,
      ((ids.foldl (fun a id => (removeListener removeFails a id).1) reg)).cleanupTimer =
        reg.cleanupTimer := by
  induction ids with
  | nil => intro reg; rfl
  | cons id rest ih =>
    intro reg
    rw [List.foldl_cons, ih, removeListener_fst_cleanupTimer]

theorem foldl_priority_cleanupTimer (removeFails : Nat → Bool)
    (ps : List ListenerPriority) :
    ∀ reg : EventListenerRegistry,
      ((ps.foldl
        (fun (acc : EventListenerRegistry) p =>
          ((acc.listeners.filter (fun l => l.priority = p)).map (·.id)).foldl
            (fun a id => (removeListener removeFails a id).1) acc) reg)).cleanupTimer =
        reg.cleanupTimer := by
  induction ps with
  | nil => intro reg; rfl
  | cons p rest ih =>
    intro reg
    rw [List.foldl_cons, ih, foldl_removeListener_cleanupTimer]

theorem registryCleanup_cleanupTimer (removeFails : Nat → Bool)
    (reg : EventListenerRegistry) :
    (registryCleanup removeFails reg).cleanupTimer = false := by
  simp only [registryCleanup]
  rw [foldl_removeListener_cleanupTimer, foldl_priority_cleanupTimer]

/-! ## Claims -/

/-- **C1**, counterexample.  The claim states that a `location.href`
check whose round-trip ends in a timeout resolves to allow (`true`).
In the code a timeout *resolves* the promise with `false` ("Timeout is
not an error - just deny navigation"), so `safeCheckNavigationPermission`
returns the denial unchanged — here at a benign URL with every attempt
timing out, the result is `false`, not `true`. -/
theorem C1_counterexample :
    safeCheckNavigationPermission (fun _ => false) "https://news.example/article"
      "location.href" (fun _ => CheckOutcome.timeout) = false := by decide

/-- **C1**, amended.  A check whose first round-trip times out resolves
to deny (`false`) for *every* navigation type — `window.open` and
`location.href` alike.  The risk-asymmetric default applies only to
checks that *fail* (promise rejection) on every attempt: then
`window.open` falls back to deny, and `location.href` with a
non-malicious URL falls back to allow. -/
theorem C1_timeout_and_error_defaults :
    (∀ (isUrlMalicious : String → Bool) (url navType : String)
        (outcomes : Nat → CheckOutcome),
        outcomes 0 = CheckOutcome.timeout →
        safeCheckNavigationPermission isUrlMalicious url navType outcomes = false) ∧
    (∀ (isUrlMalicious : String → Bool) (url : String)
        (outcomes : Nat → CheckOutcome),
        (outcomes 0).isReject = true → (outcomes 1).isReject = true →
        safeCheckNavigationPermission isUrlMalicious url "window.open" outcomes = false ∧
        (isUrlMalicious url = false →
          safeCheckNavigationPermission isUrlMalicious url "location.href" outcomes = true)) := by
  constructor
  · intro isUrlMalicious url navType outcomes h
    simp [safeCheckNavigationPermission, safeCheckLoop, h, checkNavigationPermission]
  · intro isUrlMalicious url outcomes h0 h1
    constructor
    · rw [safeCheck_of_reject_reject isUrlMalicious url "window.open" outcomes h0 h1]
      simp [assessNavigationRisk]
    · intro hmal
      rw [safeCheck_of_reject_reject isUrlMalicious url "location.href" outcomes h0 h1]
      simp [assessNavigationRisk, hmal]

/-- Witness for **C1**: the amended theorem applied at a concrete
timed-out `window.open` check and a concrete twice-rejected
`location.href` check over a benign URL. -/
theorem C1_timeout_and_error_defaults_witness :
    safeCheckNavigationPermission (fun _ => false) "https://news.example/article"
      "window.open" (fun _ => CheckOutcome.timeout) = false ∧
    safeCheckNavigationPermission (fun _ => false) "https://news.example/article"
      "location.href" (fun _ => CheckOutcome.sendError) = true :=
  ⟨C1_timeout_and_error_defaults.1 (fun _ => false) "https://news.example/article"
      "window.open" (fun _ => CheckOutcome.timeout) rfl,
   (C1_timeout_and_error_defaults.2 (fun _ => false) "https://news.example/article"
      (fun _ => CheckOutcome.sendError) rfl rfl).2 rfl⟩

/-- **C2**, counterexample.  The claim states that every installed
override — including the `window.open` override — passes same-origin
calls through unchanged and never blocks them.  But the `window.open`
override runs the pop-under heuristic *before* the same-origin test: a
same-origin `window.open(url, "_blank")` issued right after a document
click scores 3 + 2 = 5 ≥ 4 and is blocked outright. -/
theorem C2_counterexample :
    isCrossOrigin (fun _ => some "https://site.example") "https://site.example"
      (some "https://site.example/page") = false ∧
    (windowOpenOverride (fun _ => false) (fun _ => some "https://site.example")
      "https://site.example" ⟨500, []⟩ 600 (some "https://site.example/page")
      (some "_blank")).1 = InterceptAction.blocked := by decide

/-- **C2**, amended.  For every non-cross-origin target (same-origin or
a non-navigational scheme, which `isCrossOrigin` reports as `false`):
the `location.assign` / `location.replace` / `location.href` overrides
pass the call through unchanged; the `window.open` override never emits
a `NAV_GUARDIAN_CHECK`; and the `window.open` override passes the call
through *provided* the pop-under heuristic did not flag it — a flagged
call is blocked even when same-origin. -/
theorem C2_same_origin_passthrough :
    (∀ (resolveOrigin : String → Option String) (currentOrigin : String)
        (url : Option String),
        isCrossOrigin resolveOrigin currentOrigin url = false →
        locationOverride resolveOrigin currentOrigin url = InterceptAction.passthrough) ∧
    (∀ (isUrlMalicious : String → Bool) (resolveOrigin : String → Option String)
        (currentOrigin : String) (st : PopUnderState) (now : Int)
        (url name : Option String),
        isCrossOrigin resolveOrigin currentOrigin url = false →
        (windowOpenOverride isUrlMalicious resolveOrigin currentOrigin
          st now url name).1 ≠ InterceptAction.permissionCheck) ∧
    (∀ (isUrlMalicious : String → Bool) (resolveOrigin : String → Option String)
        (currentOrigin : String) (st : PopUnderState) (now : Int)
        (url name : Option String),
        isCrossOrigin resolveOrigin currentOrigin url = false →
        (isPopUnderBehavior isUrlMalicious st now url name).1.isPopUnder = false →
        (windowOpenOverride isUrlMalicious resolveOrigin currentOrigin
          st now url name).1 = InterceptAction.passthrough) := by
  refine ⟨?_, ?_, ?_⟩
  · intro resolveOrigin currentOrigin url h
    simp [locationOverride, h]
  · intro isUrlMalicious resolveOrigin currentOrigin st now url name h
    rcases hp : isPopUnderBehavior isUrlMalicious st now url name with ⟨a, s⟩
    by_cases ha : a.isPopUnder
    · simp [windowOpenOverride, hp, ha]
    · simp [windowOpenOverride, hp, ha, h]
  · intro isUrlMalicious resolveOrigin currentOrigin st now url name h hpu
    rcases hp : isPopUnderBehavior isUrlMalicious st now url name with ⟨a, s⟩
    rw [hp] at hpu
    simp only at hpu
    simp [windowOpenOverride, hp, hpu, h]

/-- Witness for **C2**: concrete same-origin calls — a `location.href`
assignment passes through, and a quiet same-origin `window.open` (no
click, no `_blank`) passes through as well. -/
theorem C2_same_origin_passthrough_witness :
    locationOverride (fun _ => some "https://site.example") "https://site.example"
      (some "https://site.example/page") = InterceptAction.passthrough ∧
    (windowOpenOverride (fun _ => false) (fun _ => some "https://site.example")
      "https://site.example" ⟨0, []⟩ 5000 (some "https://site.example/page")
      none).1 = InterceptAction.passthrough :=
  ⟨C2_same_origin_passthrough.1 (fun _ => some "https://site.example")
      "https://site.example" (some "https://site.example/page") (by decide),
   C2_same_origin_passthrough.2.2 (fun _ => false)
      (fun _ => some "https://site.example") "https://site.example"
      ⟨0, []⟩ 5000 (some "https://site.example/page") none
      (by decide) (by decide)⟩

/-- **C3**, counterexample.  The claim states that a `window.open` call
fired *outside* the recent-click window scores strictly higher than an
identical call made immediately after a click.  The code adds 3 when
the call is *inside* the click window: with all other factors equal
(`_blank` target, benign URL, empty history), the outside call scores
2 and the inside call scores 5 — the opposite ordering. -/
theorem C3_counterexample :
    (isPopUnderBehavior (fun _ => false) ⟨500, []⟩ 5000
      (some "https://x.example/") (some "_blank")).1.factors =
      ⟨false, false, true, false⟩ ∧
    (isPopUnderBehavior (fun _ => false) ⟨500, []⟩ 600
      (some "https://x.example/") (some "_blank")).1.factors =
      ⟨true, false, true, false⟩ ∧
    ¬ ((isPopUnderBehavior (fun _ => false) ⟨500, []⟩ 5000
        (some "https://x.example/") (some "_blank")).1.score >
       (isPopUnderBehavior (fun _ => false) ⟨500, []⟩ 600
        (some "https://x.example/") (some "_blank")).1.score) := by decide

/-- **C3**, amended.  With the other three factors equal, a
`window.open` call *inside* the recent-click window scores exactly 3
more than one outside it — click-adjacent calls are treated as *more*
suspicious, not less. -/
theorem C3_click_window_scoring
    (m₁ m₂ : String → Bool) (st₁ st₂ : PopUnderState) (now₁ now₂ : Int)
    (url₁ url₂ name₁ name₂ : Option String)
    (hc₁ : (isPopUnderBehavior m₁ st₁ now₁ url₁ name₁).1.factors.clickTriggered = true)
    (hc₂ : (isPopUnderBehavior m₂ st₂ now₂ url₂ name₂).1.factors.clickTriggered = false)
    (hu : (isPopUnderBehavior m₁ st₁ now₁ url₁ name₁).1.factors.popUnderURL =
          (isPopUnderBehavior m₂ st₂ now₂ url₂ name₂).1.factors.popUnderURL)
    (hb : (isPopUnderBehavior m₁ st₁ now₁ url₁ name₁).1.factors.blankTarget =
          (isPopUnderBehavior m₂ st₂ now₂ url₂ name₂).1.factors.blankTarget)
    (hq : (isPopUnderBehavior m₁ st₁ now₁ url₁ name₁).1.factors.tooFrequent =
          (isPopUnderBehavior m₂ st₂ now₂ url₂ name₂).1.factors.tooFrequent) :
    (isPopUnderBehavior m₂ st₂ now₂ url₂ name₂).1.score <
      (isPopUnderBehavior m₁ st₁ now₁ url₁ name₁).1.score ∧
    (isPopUnderBehavior m₁ st₁ now₁ url₁ name₁).1.score =
      (isPopUnderBehavior m₂ st₂ now₂ url₂ name₂).1.score + 3 := by
  rw [isPopUnderBehavior_score_eq m₁ st₁ now₁ url₁ name₁,
      isPopUnderBehavior_score_eq m₂ st₂ now₂ url₂ name₂]
  rcases hF1 : (isPopUnderBehavior m₁ st₁ now₁ url₁ name₁).1.factors with ⟨c₁, u₁, b₁, q₁⟩
  rcases hF2 : (isPopUnderBehavior m₂ st₂ now₂ url₂ name₂).1.factors with ⟨c₂, u₂, b₂, q₂⟩
  rw [hF1] at hc₁ hu hb hq
  rw [hF2] at hc₂ hu hb hq
  simp only at hc₁ hc₂ hu hb hq
  rw [hc₁, hc₂, hu, hb, hq]
  cases u₂ <;> cases b₂ <;> cases q₂ <;> decide

/-- Witness for **C3**: the amended theorem applied at the concrete
click-adjacent / click-distant pair of the counterexample. -/
theorem C3_click_window_scoring_witness :
    (isPopUnderBehavior (fun _ => false) ⟨500, []⟩ 5000
      (some "https://x.example/") (some "_blank")).1.score <
    (isPopUnderBehavior (fun _ => false) ⟨500, []⟩ 600
      (some "https://x.example/") (some "_blank")).1.score ∧
    (isPopUnderBehavior (fun _ => false) ⟨500, []⟩ 600
      (some "https://x.example/") (some "_blank")).1.score =
    (isPopUnderBehavior (fun _ => false) ⟨500, []⟩ 5000
      (some "https://x.example/") (some "_blank")).1.score + 3 :=
  C3_click_window_scoring (fun _ => false) (fun _ => false) ⟨500, []⟩ ⟨500, []⟩
    600 5000 (some "https://x.example/") (some "https://x.example/")
    (some "_blank") (some "_blank")
    (by decide) (by decide) (by decide) (by decide) (by decide)

/-- **C4**, counterexample.  The claim states that of four `window.open`
calls to distinct cross-origin targets within one minute and outside the
click window, the fourth is blocked immediately by the rolling-frequency
signal alone.  In the code `tooFrequent` contributes only 2 < 4
(`POP_UNDER_THRESHOLD_SCORE`), so the fourth call still has score 2,
is *not* flagged, and goes through the `NAV_GUARDIAN_CHECK` round-trip
like the first three. -/
theorem C4_counterexample :
    (isPopUnderBehavior (fun _ => false) ⟨0, [1100, 2200, 3300]⟩ 4400
      (some "https://e4.example/") none).1 =
      ⟨false, 2, ⟨false, false, false, true⟩⟩ ∧
    (runWindowOpens (fun _ => false) (fun u => some u) "https://site.example"
      ⟨0, []⟩ burstCalls).1 =
      [InterceptAction.permissionCheck, InterceptAction.permissionCheck,
       InterceptAction.permissionCheck, InterceptAction.permissionCheck] := by decide

/-- **C4**, amended.  The rolling-frequency signal alone yields score 2,
below the pop-under threshold of 4, so it never triggers a block by
itself; combined with a `_blank`/empty window name (+2) the score
reaches 4 and the call is blocked immediately — in the concrete burst
with `_blank` names, the first three calls go through the permission
round-trip and the fourth is blocked with no round-trip. -/
theorem C4_burst_scoring :
    (∀ (isUrlMalicious : String → Bool) (st : PopUnderState) (now : Int)
        (url name : Option String),
        (isPopUnderBehavior isUrlMalicious st now url name).1.factors =
          ⟨false, false, false, true⟩ →
        (isPopUnderBehavior isUrlMalicious st now url name).1.score = 2 ∧
        (isPopUnderBehavior isUrlMalicious st now url name).1.isPopUnder = false) ∧
    (∀ (isUrlMalicious : String → Bool) (st : PopUnderState) (now : Int)
        (url name : Option String),
        (isPopUnderBehavior isUrlMalicious st now url name).1.factors =
          ⟨false, false, true, true⟩ →
        (isPopUnderBehavior isUrlMalicious st now url name).1.score = 4 ∧
        (isPopUnderBehavior isUrlMalicious st now url name).1.isPopUnder = true) ∧
    (runWindowOpens (fun _ => false) (fun u => some u) "https://site.example"
      ⟨0, []⟩ burstCallsBlank).1 =
      [InterceptAction.permissionCheck, InterceptAction.permissionCheck,
       InterceptAction.permissionCheck, InterceptAction.blocked] := by
  refine ⟨?_, ?_, by decide⟩
  · intro isUrlMalicious st now url name h
    constructor
    · rw [isPopUnderBehavior_score_eq, h]; decide
    · rw [isPopUnderBehavior_isPopUnder_eq, isPopUnderBehavior_score_eq, h]; decide
  · intro isUrlMalicious st now url name h
    constructor
    · rw [isPopUnderBehavior_score_eq, h]; decide
    · rw [isPopUnderBehavior_isPopUnder_eq, isPopUnderBehavior_score_eq, h]; decide

/-- Witness for **C4**: the amended theorem's frequency-only part
applied at the concrete fourth burst call. -/
theorem C4_burst_scoring_witness :
    (isPopUnderBehavior (fun _ => false) ⟨0, [1100, 2200, 3300]⟩ 4400
      (some "https://e4.example/") none).1.score = 2 ∧
    (isPopUnderBehavior (fun _ => false) ⟨0, [1100, 2200, 3300]⟩ 4400
      (some "https://e4.example/") none).1.isPopUnder = false :=
  C4_burst_scoring.1 (fun _ => false) ⟨0, [1100, 2200, 3300]⟩ 4400
    (some "https://e4.example/") none (by decide)

/-- **C5**, counterexample.  The claim states that *every* terminal
decision — including automatic allows for guard-disabled, same-origin or
trusted targets — increments one of the two session counters and
persists them.  With the guard disabled, a `NAV_GUARDIAN_CHECK` is
terminally decided (an `allowed = true` response is posted) yet the
state differs from the initial one only in the response log: both
counters stay `0` and nothing is written to storage. -/
theorem C5_counterexample :
    handleNavigationMessage scenarioEnv
      { scenarioInit with navigationGuardEnabled := false }
      "https://evil1.example/" "m1" =
    { scenarioInit with
        navigationGuardEnabled := false,
        responses := [("m1", true)] } := by decide

/-- **C5**, amended.  Only decisions made by the user through the
confirmation modal touch the statistics: a modal resolution increments
exactly one of the two counters and persists the updated pair, while an
automatically allowed check posts its `allowed = true` response leaving
the counters and the stored statistics untouched. -/
theorem C5_statistics_on_decision :
    (∀ (env : GuardEnv) (st : GuardState) (url messageId : String),
        messageId ∉ st.pendingNavigationModals →
        (st.navigationGuardEnabled && contentIsCrossOrigin env url &&
          !isNavigationTrusted env st.whitelist url) = false →
        handleNavigationMessage env st url messageId =
          { st with responses := st.responses ++ [(messageId, true)] }) ∧
    (∀ (st : GuardState) (allowed : Bool) (messageId url : String),
        st.activeModal = some (messageId, url) →
        (resolveNavigationModal st allowed).navigationStats =
          (if allowed then
            { st.navigationStats with
                allowedCount := st.navigationStats.allowedCount + 1 }
           else
            { st.navigationStats with
                blockedCount := st.navigationStats.blockedCount + 1 }) ∧
        (resolveNavigationModal st allowed).storedStats =
          some ((resolveNavigationModal st allowed).navigationStats) ∧
        (resolveNavigationModal st allowed).responses =
          st.responses ++ [(messageId, allowed)]) := by
  constructor
  · intro env st url messageId hpend hcond
    simp [handleNavigationMessage, hpend, hcond]
  · intro st allowed messageId url h
    cases allowed <;> simp [resolveNavigationModal, h]

/-- Witness for **C5**: the amended theorem applied at a concrete
guard-disabled check (no counter change) and at a concrete allow
decision on the visible modal (allowed counter `0 → 1`, persisted). -/
theorem C5_statistics_on_decision_witness :
    handleNavigationMessage scenarioEnv
      { scenarioInit with navigationGuardEnabled := false }
      "https://evil1.example/" "m7" =
      { scenarioInit with
          navigationGuardEnabled := false,
          responses := [("m7", true)] } ∧
    (resolveNavigationModal concurrentState true).navigationStats = ⟨0, 1⟩ ∧
    (resolveNavigationModal concurrentState true).storedStats = some ⟨0, 1⟩ := by
  refine ⟨?_, ?_, ?_⟩
  · exact C5_statistics_on_decision.1 scenarioEnv
      { scenarioInit with navigationGuardEnabled := false }
      "https://evil1.example/" "m7" (by decide) (by decide)
  · have h := (C5_statistics_on_decision.2 concurrentState true "m1"
      "https://evil1.example/" rfl).1
    simpa [concurrentState] using h
  · have h := (C5_statistics_on_decision.2 concurrentState true "m1"
      "https://evil1.example/" rfl).2.1
    rw [h]
    have h2 := (C5_statistics_on_decision.2 concurrentState true "m1"
      "https://evil1.example/" rfl).1
    simpa [concurrentState] using h2

/-- **C6**, counterexample.  The claim states that every pending request
eventually receives its own `NAV_GUARDIAN_RESPONSE`.  After
`concurrentTrace` — a second check arriving while the first one's modal
is visible — the request `m2` is pending, owns no modal, and *no
continuation of the run whatsoever* ever posts a response carrying
`m2`: `showNavigationModal` rejected the duplicate modal without
registering the response callback, and a repeated check for `m2` is
dropped by the pending-id guard. -/
theorem C6_counterexample :
    neverAnswered scenarioEnv (navRun scenarioEnv scenarioInit concurrentTrace) "m2" := by
  have hs : navRun scenarioEnv scenarioInit concurrentTrace = concurrentState := by decide
  rw [hs]
  apply stuck_neverAnswered
  refine ⟨by decide, ?_, by decide⟩
  intro url h
  simp only [concurrentState, Option.some.injEq, Prod.mk.injEq] at h
  exact absurd h.1 (by decide)

/-- **C6**, amended.  Responses are correlated by id: resolving the
visible modal answers exactly its own `messageId`.  But a check arriving
while a modal is already visible is only recorded as pending — no modal,
no response — and such a stuck request never receives any
`NAV_GUARDIAN_RESPONSE` from the Guardian Core; on the page-world side
its promise resolves through the 30-second timeout, to deny. -/
theorem C6_concurrent_arbitration :
    (∀ (st : GuardState) (allowed : Bool) (messageId url : String),
        st.activeModal = some (messageId, url) →
        (resolveNavigationModal st allowed).responses =
          st.responses ++ [(messageId, allowed)]) ∧
    (∀ (env : GuardEnv) (st : GuardState) (url messageId : String),
        messageId ∉ st.pendingNavigationModals →
        (st.navigationGuardEnabled && contentIsCrossOrigin env url &&
          !isNavigationTrusted env st.whitelist url) = true →
        st.activeModal.isSome = true →
        handleNavigationMessage env st url messageId =
          { st with pendingNavigationModals :=
              messageId :: st.pendingNavigationModals }) ∧
    (∀ (env : GuardEnv) (st : GuardState) (messageId : String),
        stuckRequest st messageId → neverAnswered env st messageId) ∧
    (∀ (isUrlMalicious : String → Bool) (url navType : String),
        safeCheckNavigationPermission isUrlMalicious url navType
          (fun _ => CheckOutcome.timeout) = false) := by
  refine ⟨?_, ?_, stuck_neverAnswered, ?_⟩
  · intro st allowed messageId url h
    simp [resolveNavigationModal, h]
  · intro env st url messageId hpend hcond hvis
    simp [handleNavigationMessage, hpend, hcond, hvis]
  · intro isUrlMalicious url navType
    simp [safeCheckNavigationPermission, safeCheckLoop, checkNavigationPermission]

/-- Witness for **C6**: the amended theorem applied at concrete inputs —
a fresh check arriving while `m1`'s modal is visible is merely recorded
as pending, and a concrete timed-out interceptor check denies. -/
theorem C6_concurrent_arbitration_witness :
    handleNavigationMessage scenarioEnv concurrentState
      "https://evil2.example/" "m3" =
      { concurrentState with
          pendingNavigationModals := "m3" :: concurrentState.pendingNavigationModals } ∧
    safeCheckNavigationPermission (fun _ => false) "https://evil2.example/"
      "location.href" (fun _ => CheckOutcome.timeout) = false :=
  ⟨C6_concurrent_arbitration.2.1 scenarioEnv concurrentState
      "https://evil2.example/" "m3" (by decide) (by decide) (by decide),
   C6_concurrent_arbitration.2.2.2 (fun _ => false) "https://evil2.example/"
      "location.href"⟩

/-- **C8** (confirmed): a second `NAV_GUARDIAN_CHECK` carrying a
`messageId` that is already pending leaves the state entirely unchanged;
and in the concrete duplicate scenario — the same check twice, then the
user allowing — exactly one modal is shown, exactly one response is
posted, and exactly one counter is incremented and persisted. -/
theorem C8_duplicate_suppression :
    (∀ (env : GuardEnv) (st : GuardState) (url messageId : String),
        messageId ∈ st.pendingNavigationModals →
        handleNavigationMessage env st url messageId = st) ∧
    ((navRun scenarioEnv scenarioInit duplicateTrace).modalsShown = 1 ∧
     (navRun scenarioEnv scenarioInit duplicateTrace).responses = [("m1", true)] ∧
     (navRun scenarioEnv scenarioInit duplicateTrace).navigationStats = ⟨0, 1⟩ ∧
     (navRun scenarioEnv scenarioInit duplicateTrace).storedStats = some ⟨0, 1⟩) := by
  constructor
  · intro env st url messageId h
    simp [handleNavigationMessage, h]
  · exact ⟨by decide, by decide, by decide, by decide⟩

/-- Witness for **C8**: the duplicate-suppression part applied at the
concrete state in which `m2` is already pending. -/
theorem C8_duplicate_suppression_witness :
    handleNavigationMessage scenarioEnv concurrentState
      "https://evil2.example/" "m2" = concurrentState :=
  C8_duplicate_suppression.1 scenarioEnv concurrentState
    "https://evil2.example/" "m2" (by decide)

/-- **C7** (confirmed): for every match oracle, whenever
`analyzeScriptContent` reports `isPopUnder` it also reports
`shouldBlock` (blocking threshold 6 ≤ pop-under threshold 8), and the
`riskScore` is the sum, over both signature tables, of the full weight
of every independently matched signature. -/
theorem C7_threshold_ordering :
    (∀ matched : Nat → Bool,
        (analyzeScriptContent matched).isPopUnder = true →
        (analyzeScriptContent matched).shouldBlock = true) ∧
    (∀ matched : Nat → Bool,
        (analyzeScriptContent matched).riskScore =
          ((List.range popUnderSignatures.length).map
            (fun j => if matched j then (popUnderSignatures.getD j (0, "")).1 else 0)).sum +
          ((List.range behaviorPatterns.length).map
            (fun j => if matched (popUnderSignatures.length + j) then
              (behaviorPatterns.getD j (0, "")).1 else 0)).sum) := by
  constructor
  · intro matched h
    simp only [analyzeScriptContent, decide_eq_true_eq] at h ⊢
    omega
  · intro matched
    simp only [analyzeScriptContent]
    rw [applySignatures_score matched popUnderSignatures 0,
        applySignatures_score matched behaviorPatterns popUnderSignatures.length]
    simp

/-- Witness for **C7**: the threshold-ordering part applied at the
oracle matching exactly the first signature (weight 10 ≥ 8). -/
theorem C7_threshold_ordering_witness :
    (analyzeScriptContent (fun i => decide (i = 0))).shouldBlock = true :=
  C7_threshold_ordering.1 (fun i => decide (i = 0)) (by decide)

/-- **C9** (confirmed): `domainMatches` matching semantics — a wildcard
pattern `*.b` matches exactly `b` itself and every domain ending in
`.b`; a bare pattern `p` (no wildcard) matches exactly `p` itself and
every domain ending in `.p`; the extracted utils copy agrees on every
nonempty domain; and with whitelist `["example.com"]` the navigation to
`https://sub.example.com/page` is trusted and auto-allowed by
`handleNavigationMessage` with no modal. -/
theorem C9_whitelist_semantics :
    (∀ d b : List Char,
        Content.domainMatches d ('*' :: '.' :: b) =
          (d == b || ('.' :: b).isSuffixOf d)) ∧
    (∀ d p : List Char,
        (['*', '.']).isPrefixOf p = false →
        Content.domainMatches d p = (d == p || ('.' :: p).isSuffixOf d)) ∧
    (∀ d b : List Char, d ≠ [] →
        DomainMatchUtil.domainMatches d ('*' :: '.' :: b) =
          (d == b || ('.' :: b).isSuffixOf d)) ∧
    (isNavigationTrusted scenarioEnv ["example.com".toList]
        "https://sub.example.com/page" = true ∧
     handleNavigationMessage scenarioEnv scenarioInit
        "https://sub.example.com/page" "m9" =
       { scenarioInit with responses := [("m9", true)] }) := by
  have hpre : ∀ b : List Char, (['*', '.']).isPrefixOf ('*' :: '.' :: b) = true := by
    intro b; simp [List.isPrefixOf]
  have hsuf : ∀ b : List Char, ('.' :: b).isSuffixOf ('*' :: '.' :: b) = true := by
    intro b
    rw [List.isSuffixOf_iff_suffix]
    exact ⟨['*'], rfl⟩
  refine ⟨?_, ?_, ?_, by decide, by decide⟩
  · intro d b
    simp [Content.domainMatches, hpre b]
  · intro d p h
    simp only [Content.domainMatches, h, Bool.false_eq_true, if_false]
    cases hdp : d == p
    · simp [hdp]
    · have : d = p := by simpa using hdp
      simp [this]
  · intro d b hd
    simp only [DomainMatchUtil.domainMatches]
    rw [if_neg (by simp [hd])]
    cases hdp : d == ('*' :: '.' :: b)
    · simp [hdp, hpre b]
    · have hde : d = '*' :: '.' :: b := by simpa using hdp
      subst hde
      simp [hsuf b]

/-- Witness for **C9**: the bare-pattern characterisation applied at
`www.youtube.com` vs `youtube.com`, and the utils copy's wildcard rule
applied at `sub.example.com` vs `*.example.com`. -/
theorem C9_whitelist_semantics_witness :
    Content.domainMatches "www.youtube.com".toList "youtube.com".toList =
      ("www.youtube.com".toList == "youtube.com".toList ||
       ('.' :: "youtube.com".toList).isSuffixOf "www.youtube.com".toList) ∧
    DomainMatchUtil.domainMatches "sub.example.com".toList
        ('*' :: '.' :: "example.com".toList) =
      ("sub.example.com".toList == "example.com".toList ||
       ('.' :: "example.com".toList).isSuffixOf "sub.example.com".toList) :=
  ⟨C9_whitelist_semantics.2.1 "www.youtube.com".toList "youtube.com".toList (by decide),
   C9_whitelist_semantics.2.2.1 "sub.example.com".toList "example.com".toList (by decide)⟩

/-- **C10** (confirmed): after `EventListenerRegistry.cleanup` the
registry reports zero listeners, zero per-module tracking entries, zero
active count and a stopped periodic timer, no matter which individual
removals fail; and `CleanupRegistry.cleanupAll` empties the module and
compartment storage, stops its timer, produces exactly one report entry
per registered module (a failing module never aborts the others), and
records every module whose cleanup throws, rejects or times out as a
failed entry of the report. -/
theorem C10_cleanup_completeness :
    (∀ (removeFails : Nat → Bool) (reg : EventListenerRegistry),
        (registryCleanup removeFails reg).listeners = [] ∧
        (registryCleanup removeFails reg).moduleListeners = [] ∧
        (registryCleanup removeFails reg).orphanedListeners = [] ∧
        (registryCleanup removeFails reg).listenerStats.activeCount = 0 ∧
        (registryCleanup removeFails reg).cleanupTimer = false) ∧
    (∀ (outcomes : String → ModuleCleanupOutcome) (reg : CleanupRegistry),
        (cleanupAll outcomes reg).1.modules = [] ∧
        (cleanupAll outcomes reg).1.compartments = [] ∧
        (cleanupAll outcomes reg).1.cleanupTimer = false ∧
        ((cleanupAll outcomes reg).2).length = reg.modules.length) ∧
    (∀ (outcomes : String → ModuleCleanupOutcome) (reg : CleanupRegistry)
        (e : ModuleEntry), e ∈ reg.modules →
        outcomes e.name ≠ ModuleCleanupOutcome.success →
        (⟨e.name, e.compartment, false⟩ : CleanupResult) ∈ (cleanupAll outcomes reg).2) := by
  refine ⟨?_, ?_, ?_⟩
  · intro removeFails reg
    exact ⟨rfl, rfl, rfl, rfl, registryCleanup_cleanupTimer removeFails reg⟩
  · intro outcomes reg
    refine ⟨rfl, rfl, rfl, ?_⟩
    simp [cleanupAll, List.length_insertionSort]
  · intro outcomes reg e he hne
    have he' : e ∈ reg.modules.insertionSort
        (fun a b => cleanupSortKey b ≤ cleanupSortKey a) :=
      ((List.perm_insertionSort _ _).mem_iff).2 he
    have hm := List.mem_map_of_mem (fun e => cleanupModule (outcomes e.name) e) he'
    have heq : cleanupModule (outcomes e.name) e =
        (⟨e.name, e.compartment, false⟩ : CleanupResult) := by
      cases ho : outcomes e.name with
      | success => exact absurd ho hne
      | throwsSync => rfl
      | rejects => rfl
      | timesOut => rfl
    simpa [cleanupAll, heq] using hm

/-- Witness for **C10**: the failed-entry part applied at a concrete
registry holding one module whose cleanup times out. -/
theorem C10_cleanup_completeness_witness :
    (⟨"analyzer", "protection", false⟩ : CleanupResult) ∈
      (cleanupAll (fun _ => ModuleCleanupOutcome.timesOut)
        ⟨[⟨"analyzer", "protection", "normal", "low"⟩], ["protection"], true, 0⟩).2 :=
  C10_cleanup_completeness.2.2 (fun _ => ModuleCleanupOutcome.timesOut)
    ⟨[⟨"analyzer", "protection", "normal", "low"⟩], ["protection"], true, 0⟩
    ⟨"analyzer", "protection", "normal", "low"⟩ (by decide) (by decide)

end JustUI
